import Mathlib

/-!
Verification of the simpledns DNS daemon (Rust sources under `src/`).

The definitions below are a shallow embedding of the repository's code:

* `src/src/utils.rs`            — byte helpers and compressed-name decoding
* `src/src/dns_packet.rs`       — the DNS wire codec (header, question, records)
* `src/src/simple_database.rs`  — the SQLite-backed record store
* `src/src/dns_resolver.rs`     — the query resolver
* `src/thread-pooler/src/manager_worker_pool.rs` — the worker pool

Machine integers (`u8`, `u16`, `u32`) are modelled as `Nat`; the Rust code
never relies on wrap-around in the embedded fragments except where noted,
and bit operations are written exactly as in the source (`&&&`, `|||`,
`<<<`, `>>>`, `^^^`).  Byte buffers are `List Nat`.  Rust panics (slice
or index out of bounds, `unwrap` failures) are represented by an explicit
`panick` outcome so that safety claims about them can be settled.
SQLite and rusqlite behaviour is modelled at the level of table rows:
a table is a list of rows, an `INSERT OR REPLACE` under a unique index
deletes the conflicting rows and appends the new one, and requesting an
integer from a TEXT column fails with rusqlite's `InvalidColumnType`.
-/

namespace SimpleDns

/-- Source: `std::net::Ipv4Addr` as used by the repository — four octets. -/
structure Ipv4Addr where
  o0 : Nat
  o1 : Nat
  o2 : Nat
  o3 : Nat
deriving DecidableEq, Repr

/-- Source `Ipv4Addr::to_string` — dotted decimal. -/
def Ipv4Addr.toStr (ip : Ipv4Addr) : String :=
  toString ip.o0 ++ "." ++ toString ip.o1 ++ "." ++ toString ip.o2 ++ "." ++ toString ip.o3

/-- Source `Ipv4Addr::from_str` — parses dotted decimal, `none` on failure.  (Used by
`row_to_dns_record` through `.unwrap()`, which panics on `none`.) -/
def Ipv4Addr.fromStr (s : String) : Option Ipv4Addr :=
  match (s.splitOn ".").map String.toNat? with
  | [some a, some b, some c, some d] =>
    if a < 256 ∧ b < 256 ∧ c < 256 ∧ d < 256 then some ⟨a, b, c, d⟩ else none
  | _ => none

/-- Source: `DnsQueryType` in `src/src/dns_packet.rs`. -/
inductive DnsQueryType where
  | Unknown (n : Nat)
  | A
  | NS
  | CNAME
  | MX
  | AAAA
  | DROP
deriving DecidableEq, Repr

/-- Source: `DnsQueryType::to_num`. -/
def DnsQueryType.to_num : DnsQueryType → Nat
  | .Unknown x => x
  | .A => 1
  | .NS => 2
  | .CNAME => 5
  | .MX => 15
  | .AAAA => 28
  | .DROP => 666

/-- Source: `DnsQueryType::from_num`. -/
def DnsQueryType.from_num (num : Nat) : DnsQueryType :=
  match num with
  | 1 => .A
  | 2 => .NS
  | 5 => .CNAME
  | 15 => .MX
  | 28 => .AAAA
  | 666 => .DROP
  | x => .Unknown x

/-- Source: `DnsOpCode` in `src/src/dns_packet.rs`. -/
inductive DnsOpCode where
  | QUERY
  | IQUERY
  | STATUS
  | NOTIFY
  | UPDATE
  | DNSSO
deriving DecidableEq, Repr

/-- Source: `impl From<DnsOpCode> for u8`. -/
def DnsOpCode.toNum : DnsOpCode → Nat
  | .IQUERY => 1
  | .STATUS => 2
  | .NOTIFY => 4
  | .UPDATE => 5
  | .DNSSO => 6
  | .QUERY => 0

/-- Source: `impl From<u8> for DnsOpCode` — unknown values decode to QUERY. -/
def DnsOpCode.fromNum (value : Nat) : DnsOpCode :=
  match value with
  | 1 => .IQUERY
  | 2 => .STATUS
  | 4 => .NOTIFY
  | 5 => .UPDATE
  | 6 => .DNSSO
  | _ => .QUERY

/-- Source: `DnsResponseCode` in `src/src/dns_packet.rs`. -/
inductive DnsResponseCode where
  | NOERROR
  | FORMERR
  | SERVFAIL
  | NXDOMAIN
  | NOTIMP
  | REFUSED
  | YXDOMAIN
  | YXRRSET
  | NXRRSET
  | NOTAUTH
  | NOTZONE
  | DSOTYPENI
deriving DecidableEq, Repr

/-- Source: `impl From<DnsResponseCode> for u8`. -/
def DnsResponseCode.toNum : DnsResponseCode → Nat
  | .NOERROR => 0
  | .FORMERR => 1
  | .SERVFAIL => 2
  | .NXDOMAIN => 3
  | .NOTIMP => 4
  | .REFUSED => 5
  | .YXDOMAIN => 6
  | .YXRRSET => 7
  | .NXRRSET => 8
  | .NOTAUTH => 9
  | .NOTZONE => 10
  | .DSOTYPENI => 11

/-- Source: `impl From<u8> for DnsResponseCode` — unknown values decode to NOERROR. -/
def DnsResponseCode.fromNum (value : Nat) : DnsResponseCode :=
  match value with
  | 0 => .NOERROR
  | 1 => .FORMERR
  | 2 => .SERVFAIL
  | 3 => .NXDOMAIN
  | 4 => .NOTIMP
  | 5 => .REFUSED
  | 6 => .YXDOMAIN
  | 7 => .YXRRSET
  | 8 => .NXRRSET
  | 9 => .NOTAUTH
  | 10 => .NOTZONE
  | 11 => .DSOTYPENI
  | _ => .NOERROR

/-- Source: `DnsHeader` in `src/src/dns_packet.rs`.  The Rust field `class`
does not occur here; counts are `u16`, modelled as `Nat`. -/
structure DnsHeader where
  id : Nat
  query_response : Bool
  op_code : DnsOpCode
  auth_answer : Bool
  truncated_message : Bool
  recurse_desired : Bool
  recurse_available : Bool
  checking_disabled : Bool
  authed_data : Bool
  z : Bool
  response_code : DnsResponseCode
  question_count : Nat
  answer_count : Nat
  authority_count : Nat
  additional_count : Nat
deriving DecidableEq, Repr

/-- Rust `bool as u8`. -/
def boolToNat (b : Bool) : Nat := if b then 1 else 0

/-- Source: `utils::u16_to_bytes`. -/
def u16_to_bytes (num : Nat) : List Nat :=
  [(num >>> 8) &&& 0xFF, num &&& 0xFF]

/-- Source: `utils::u32_to_bytes`. -/
def u32_to_bytes (num : Nat) : List Nat :=
  [(num >>> 24) &&& 0xFF, (num >>> 16) &&& 0xFF, (num >>> 8) &&& 0xFF, num &&& 0xFF]

/-- Source: `DnsHeader::new` — the Rust code draws `id` from `rand::random`;
the random draw is taken as a parameter here.  All other fields are as in
the source. -/
def DnsHeader.new (id : Nat) : DnsHeader where
  id := id
  query_response := false
  op_code := .QUERY
  auth_answer := false
  truncated_message := false
  recurse_desired := false
  recurse_available := false
  checking_disabled := false
  authed_data := false
  z := false
  response_code := .NOERROR
  question_count := 0
  answer_count := 0
  authority_count := 0
  additional_count := 0

/-- Source: `DnsHeader::to_bytes` (`src/src/dns_packet.rs:309`).  Byte 2 packs
RD, TC<<1, AA<<2, OpCode<<3, QR<<7; byte 3 packs RCode, CD<<4, AD<<5, Z<<6,
RA<<7, exactly as the Rust shifts read. -/
def DnsHeader.to_bytes (h : DnsHeader) : List Nat :=
  u16_to_bytes h.id ++
  [boolToNat h.recurse_desired |||
    (boolToNat h.truncated_message <<< 1) |||
    (boolToNat h.auth_answer <<< 2) |||
    (h.op_code.toNum <<< 3) |||
    (boolToNat h.query_response <<< 7)] ++
  [h.response_code.toNum |||
    (boolToNat h.checking_disabled <<< 4) |||
    (boolToNat h.authed_data <<< 5) |||
    (boolToNat h.z <<< 6) |||
    (boolToNat h.recurse_available <<< 7)] ++
  u16_to_bytes h.question_count ++
  u16_to_bytes h.answer_count ++
  u16_to_bytes h.authority_count ++
  u16_to_bytes h.additional_count

/-- Rust `bytes[i]` on a buffer known to be in bounds (the 12-byte header slice). -/
def byteAt (bytes : List Nat) (i : Nat) : Nat := bytes.getD i 0

/-- Source `utils::get_u16` specialised to in-bounds reads inside the 12-byte header
slice, where the source's bound check always passes. -/
def u16At (bytes : List Nat) (i : Nat) : Nat :=
  (byteAt bytes i <<< 8) ||| byteAt bytes (i + 1)

/-- Source: `DnsHeader::from_bytes` (`src/src/dns_packet.rs:335`).  The bit
positions are transcribed verbatim from the Rust, including
`authed_data: ((bytes[3] >> 7) & 5) != 0`, `checking_disabled` from bit 6
and `z` from bit 4 of byte 3. -/
def DnsHeader.from_bytes (bytes : List Nat) : Option DnsHeader :=
  if bytes.length = 12 then
    some {
      id := u16At bytes 0
      query_response := ((byteAt bytes 2 >>> 7) &&& 1) != 0
      op_code := DnsOpCode.fromNum ((byteAt bytes 2 >>> 3) &&& 15)
      auth_answer := ((byteAt bytes 2 >>> 2) &&& 1) != 0
      truncated_message := ((byteAt bytes 2 >>> 1) &&& 1) != 0
      recurse_desired := (byteAt bytes 2 &&& 1) != 0
      recurse_available := ((byteAt bytes 3 >>> 7) &&& 1) != 0
      checking_disabled := ((byteAt bytes 3 >>> 6) &&& 1) != 0
      authed_data := ((byteAt bytes 3 >>> 7) &&& 5) != 0
      z := ((byteAt bytes 3 >>> 4) &&& 1) != 0
      response_code := DnsResponseCode.fromNum (byteAt bytes 3 &&& 15)
      question_count := u16At bytes 4
      answer_count := u16At bytes 6
      authority_count := u16At bytes 8
      additional_count := u16At bytes 10 }
  else
    none

/-- Source: `utils::domain_name_to_bytes` — split on `.`, emit a length byte
(`len & 0xFF`) then the label's UTF-8 bytes, terminate with `0x00`. -/
def domain_name_to_bytes (value : String) : List Nat :=
  ((value.splitOn ".").flatMap fun s =>
    (s.utf8ByteSize &&& 0xFF) :: (s.toUTF8.toList.map UInt8.toNat)) ++ [0]

/-- Source: `DnsQuestion` in `src/src/dns_packet.rs`.  The Rust field name
`class` is a Lean keyword; it is spelled `cls` throughout this file. -/
structure DnsQuestion where
  name : String
  query_type : DnsQueryType
  cls : Nat
deriving DecidableEq, Repr

/-- Source: `DnsQuestion::new` — class defaults to 1. -/
def DnsQuestion.new (name : String) (query_type : DnsQueryType) : DnsQuestion :=
  { name := name, query_type := query_type, cls := 1 }

/-- Source: `DnsQuestion::to_bytes`. -/
def DnsQuestion.to_bytes (q : DnsQuestion) : List Nat :=
  domain_name_to_bytes q.name ++ u16_to_bytes q.query_type.to_num ++ u16_to_bytes q.cls

/-- Source: `DnsRecordPreamble` (field `class` spelled `cls`, `len` is the
`rdlength`). -/
structure DnsRecordPreamble where
  domain : String
  query_type : DnsQueryType
  cls : Nat
  ttl : Nat
  len : Nat
deriving DecidableEq, Repr

/-- Source: `DnsRecordPreamble::new`. -/
def DnsRecordPreamble.new : DnsRecordPreamble :=
  { domain := "", query_type := .Unknown 0, cls := 0, ttl := 0, len := 0 }

/-- Source: `impl From<&DnsRecordPreamble> for Vec<u8>`. -/
def DnsRecordPreamble.to_bytes (p : DnsRecordPreamble) : List Nat :=
  domain_name_to_bytes p.domain ++ u16_to_bytes p.query_type.to_num ++
  u16_to_bytes p.cls ++ u32_to_bytes p.ttl ++ u16_to_bytes p.len

/-- Source: `DnsRecordUnknown`. -/
structure DnsRecordUnknown where
  preamble : DnsRecordPreamble
  body : List Nat
deriving DecidableEq, Repr

/-- Source: `DnsRecordUnknown::new` — overwrites `preamble.len` with the body
length (`body.len() as u16`; bodies here never reach 2^16). -/
def DnsRecordUnknown.new (preamble : DnsRecordPreamble) (body : List Nat) : DnsRecordUnknown :=
  { preamble := { preamble with len := body.length }, body := body }

/-- Source: `DnsRecordDROP`. -/
structure DnsRecordDROP where
  preamble : DnsRecordPreamble
deriving DecidableEq, Repr

/-- Source: `DnsRecordDROP::new`. -/
def DnsRecordDROP.new (preamble : DnsRecordPreamble) : DnsRecordDROP :=
  { preamble := preamble }

/-- Source: `DnsRecordA`. -/
structure DnsRecordA where
  preamble : DnsRecordPreamble
  ip : Ipv4Addr
deriving DecidableEq, Repr

/-- Source: `DnsRecordA::new` — sets `preamble.len` to 4. -/
def DnsRecordA.new (preamble : DnsRecordPreamble) (ip : Ipv4Addr) : DnsRecordA :=
  { preamble := { preamble with len := 4 }, ip := ip }

/-- Source: `DnsRecordNS`. -/
structure DnsRecordNS where
  preamble : DnsRecordPreamble
  host : String
deriving DecidableEq, Repr

/-- Source: `DnsRecordNS::new` — sets `preamble.len` to the encoded host length. -/
def DnsRecordNS.new (preamble : DnsRecordPreamble) (host : String) : DnsRecordNS :=
  { preamble := { preamble with len := (domain_name_to_bytes host).length }, host := host }

/-- Source: `DnsRecordCNAME`. -/
structure DnsRecordCNAME where
  preamble : DnsRecordPreamble
  host : String
deriving DecidableEq, Repr

/-- Source: `DnsRecordCNAME::new`. -/
def DnsRecordCNAME.new (preamble : DnsRecordPreamble) (host : String) : DnsRecordCNAME :=
  { preamble := { preamble with len := (domain_name_to_bytes host).length }, host := host }

/-- Source: `DnsRecordMX`. -/
structure DnsRecordMX where
  preamble : DnsRecordPreamble
  priority : Nat
  host : String
deriving DecidableEq, Repr

/-- Source: `DnsRecordMX::new` — `len` is the encoded host length plus 2. -/
def DnsRecordMX.new (preamble : DnsRecordPreamble) (priority : Nat) (host : String) : DnsRecordMX :=
  { preamble := { preamble with len := (domain_name_to_bytes host).length + 2 },
    priority := priority, host := host }

/-- Source: `DnsRecordAAAA` — the source stores an `Ipv4Addr` (4 bytes) here. -/
structure DnsRecordAAAA where
  preamble : DnsRecordPreamble
  ip : Ipv4Addr
deriving DecidableEq, Repr

/-- Source: `DnsRecordAAAA::new` — sets `preamble.len` to 4. -/
def DnsRecordAAAA.new (preamble : DnsRecordPreamble) (ip : Ipv4Addr) : DnsRecordAAAA :=
  { preamble := { preamble with len := 4 }, ip := ip }

/-- Source: `DnsRecord` in `src/src/dns_packet.rs`. -/
inductive DnsRecord where
  | Unknown (x : DnsRecordUnknown)
  | A (x : DnsRecordA)
  | NS (x : DnsRecordNS)
  | CNAME (x : DnsRecordCNAME)
  | MX (x : DnsRecordMX)
  | AAAA (x : DnsRecordAAAA)
  | DROP (x : DnsRecordDROP)
deriving DecidableEq, Repr

/-- Source: `DnsRecord::get_query_type`. -/
def DnsRecord.get_query_type : DnsRecord → DnsQueryType
  | .Unknown x => x.preamble.query_type
  | .A x => x.preamble.query_type
  | .NS x => x.preamble.query_type
  | .CNAME x => x.preamble.query_type
  | .MX x => x.preamble.query_type
  | .AAAA x => x.preamble.query_type
  | .DROP x => x.preamble.query_type

/-- Source: `DnsRecord::get_preamble`. -/
def DnsRecord.get_preamble : DnsRecord → DnsRecordPreamble
  | .Unknown x => x.preamble
  | .A x => x.preamble
  | .NS x => x.preamble
  | .CNAME x => x.preamble
  | .MX x => x.preamble
  | .AAAA x => x.preamble
  | .DROP x => x.preamble

/-- Source: `impl From<&DnsRecord> for Vec<u8>` and the per-variant `From`
impls — preamble bytes followed by the rdata; a DROP record serializes to
`Vec::new()` (zero bytes). -/
def DnsRecord.to_bytes : DnsRecord → List Nat
  | .Unknown x => x.preamble.to_bytes ++ x.body
  | .A x => x.preamble.to_bytes ++ [x.ip.o0, x.ip.o1, x.ip.o2, x.ip.o3]
  | .NS x => x.preamble.to_bytes ++ domain_name_to_bytes x.host
  | .CNAME x => x.preamble.to_bytes ++ domain_name_to_bytes x.host
  | .MX x => x.preamble.to_bytes ++ u16_to_bytes x.priority ++ domain_name_to_bytes x.host
  | .AAAA x => x.preamble.to_bytes ++ [x.ip.o0, x.ip.o1, x.ip.o2, x.ip.o3]
  | .DROP _ => []

/-- Source: `DnsPacket` in `src/src/dns_packet.rs`. -/
structure DnsPacket where
  header : DnsHeader
  question_section : List DnsQuestion
  answer_section : List DnsRecord
  authority_section : List DnsRecord
  additional_section : List DnsRecord
deriving DecidableEq, Repr

/-- Source: `DnsPacket::new` — the header id comes from `DnsHeader::new`'s
random draw, taken as a parameter. -/
def DnsPacket.new (id : Nat) : DnsPacket where
  header := DnsHeader.new id
  question_section := []
  answer_section := []
  authority_section := []
  additional_section := []

/-- Source: `DnsPacket::add_question` — pushes the question and increments the
stored question count. -/
def DnsPacket.add_question (p : DnsPacket) (question : DnsQuestion) : DnsPacket :=
  { p with question_section := p.question_section ++ [question],
           header := { p.header with question_count := p.header.question_count + 1 } }

/-- Source: `DnsPacket::add_answer` — pushes the answer and increments the
stored answer count. -/
def DnsPacket.add_answer (p : DnsPacket) (answer : DnsRecord) : DnsPacket :=
  { p with answer_section := p.answer_section ++ [answer],
           header := { p.header with answer_count := p.header.answer_count + 1 } }

/-- Source: `DnsPacket::to_bytes` (`src/src/dns_packet.rs:39`) — header bytes
(with the stored counts) followed by each section's encodings.  The counts
are NOT recomputed from the section lengths. -/
def DnsPacket.to_bytes (p : DnsPacket) : List Nat :=
  p.header.to_bytes ++
  (p.question_section.flatMap DnsQuestion.to_bytes) ++
  (p.answer_section.flatMap DnsRecord.to_bytes) ++
  (p.authority_section.flatMap DnsRecord.to_bytes) ++
  (p.additional_section.flatMap DnsRecord.to_bytes)

/-- Error kinds produced by the parsing path.  The source returns
`std::io::Error` with `ErrorKind::InvalidData` and a message; the cases are
distinguished here by the site that raises them. -/
inductive PErr where
  /-- `utils::get_u16` / `get_u32`: "Not enough bytes ..." -/
  | truncated
  /-- `utils::get_name_from_packet`: "Loop limit exceeded" -/
  | loopLimit
  /-- `parse_dns_record` on query type DROP: "Stop" -/
  | dropOnWire
  /-- `DnsHeader::from_bytes`: "Not enough bytes for header" (unreachable from
  `DnsPacket::from_bytes`, which always passes a 12-byte slice) -/
  | headerLen
deriving DecidableEq, Repr

/-- Outcome of running a fragment of Rust parsing code: a value, an error
returned through `Result`, or a panic (out-of-bounds slice/index, failed
`unwrap`).  Rust panics abort the computation, hence the monadic short
circuit. -/
inductive POut (α : Type) where
  | ok (a : α)
  | err (e : PErr)
  | panick
deriving DecidableEq, Repr

def POut.bind {α β : Type} : POut α → (α → POut β) → POut β
  | .ok a, f => f a
  | .err e, _ => .err e
  | .panick, _ => .panick

instance : Monad POut where
  pure := .ok
  bind := POut.bind

/-- Source: `utils::get_u16` (`src/src/utils.rs:73`).  The bound check is
`index <= bytes.len() - 2` on `usize`: for a buffer shorter than 2 bytes the
subtraction itself is an overflow panic in debug builds and leads to an
out-of-bounds index panic in release builds, so that case is `panick`. -/
def get_u16 (bytes : List Nat) (index : Nat) : POut Nat :=
  if bytes.length < 2 then .panick
  else if index ≤ bytes.length - 2 then
    .ok ((byteAt bytes index <<< 8) ||| byteAt bytes (index + 1))
  else .err .truncated

/-- Source: `utils::get_u32` (`src/src/utils.rs:84`), same bound-check shape
as `get_u16`. -/
def get_u32 (bytes : List Nat) (index : Nat) : POut Nat :=
  if bytes.length < 4 then .panick
  else if index ≤ bytes.length - 4 then
    .ok ((byteAt bytes index <<< 24) ||| (byteAt bytes (index + 1) <<< 16) |||
         (byteAt bytes (index + 2) <<< 8) ||| byteAt bytes (index + 3))
  else .err .truncated

/-- ASCII lowercasing of one byte (`str::to_lowercase` restricted to ASCII). -/
def lowerByte (b : Nat) : Nat := if 65 ≤ b ∧ b ≤ 90 then b + 32 else b

/-- Bytes to string, byte-per-character (`str::from_utf8` on ASCII data; its
`unwrap` panic on invalid UTF-8 is not exercised by any theorem below). -/
def bytesToString (bs : List Nat) : String :=
  String.mk (bs.map fun b => Char.ofNat b)

/-- Decode an ASCII label to a lowercased string. -/
def labelToString (label : List Nat) : String :=
  String.mk (label.map fun b => Char.ofNat (lowerByte b))

/-- The `loop` body of `utils::get_name_from_packet`, with the recursion
depth carried as the countdown `dl = 19 - depth`: the source's callee-side
check `depth == 20` becomes `dl = 0` at the jump site.  `bytes[index]` out of
bounds, a label slice past the end of the buffer, and a non-ASCII label byte
(where `String::from_utf8(..).unwrap()` can panic; valid multi-byte UTF-8 is
not exercised by any theorem below) are all panics. -/
def nameGo (bs : List Nat) (index : Nat) (dl : Nat) (result delim : String) :
    POut (String × Nat) :=
  if h : index < bs.length then
    let lengthByte := bs.get ⟨index, h⟩
    if lengthByte &&& 0xC0 = 0xC0 then
      if h2 : index + 1 < bs.length then
        let offsetByte := bs.get ⟨index + 1, h2⟩
        let jump := ((lengthByte ^^^ 0xC0) <<< 8) ||| offsetByte
        if _hdl : dl = 0 then .err .loopLimit
        else
          match nameGo bs jump (dl - 1) "" "" with
          | .ok (part, _) => .ok (result ++ part, index + 2)
          | .err e => .err e
          | .panick => .panick
      else .panick
    else
      if lengthByte = 0 then .ok (result, index + 1)
      else
        let endIdx := index + 1 + lengthByte
        if _hE : endIdx ≤ bs.length then
          let label := (bs.drop (index + 1)).take lengthByte
          if label.all (fun b => b < 128) then
            nameGo bs endIdx dl (result ++ delim ++ labelToString label) "."
          else .panick
        else .panick
  else .panick
termination_by (dl, bs.length - index)
decreasing_by
  · apply Prod.Lex.left; omega
  · apply Prod.Lex.right' <;> omega

/-- Source: `utils::get_name_from_packet` (`src/src/utils.rs:17`).  Every
call site in the repository passes `depth = 0`; the depth bound of 20
becomes the countdown `19 - depth` handed to `nameGo` (a jump performed at
depth 19 would enter depth 20 and fail with the loop limit). -/
def get_name_from_packet (bytes : List Nat) (start : Nat) (depth : Nat) :
    POut (String × Nat) :=
  if depth = 20 then .err .loopLimit
  else nameGo bytes start (19 - depth) "" ""

/-- Source: `parse_dns_record` (`src/src/dns_packet.rs:101`).  Rdata reads
index the buffer directly (`buffer[index]`, `&buffer[index..index+len]`),
which panics when past the end; DROP on the wire is rejected. -/
def parse_dns_record (buffer : List Nat) (buffer_index : Nat) : POut (DnsRecord × Nat) := do
  let (domain, i1) ← get_name_from_packet buffer buffer_index 0
  let qtNum ← get_u16 buffer i1
  let cls ← get_u16 buffer (i1 + 2)
  let ttl ← get_u32 buffer (i1 + 4)
  let len ← get_u16 buffer (i1 + 8)
  let index := i1 + 10
  let preamble : DnsRecordPreamble :=
    { domain := domain, query_type := DnsQueryType.from_num qtNum,
      cls := cls, ttl := ttl, len := len }
  match preamble.query_type with
  | .Unknown _ =>
    if index + len ≤ buffer.length then
      .ok (.Unknown (DnsRecordUnknown.new preamble ((buffer.drop index).take len)), index + len)
    else .panick
  | .A =>
    if index + 4 ≤ buffer.length then
      .ok (.A (DnsRecordA.new preamble
        ⟨byteAt buffer index, byteAt buffer (index + 1),
         byteAt buffer (index + 2), byteAt buffer (index + 3)⟩), index + 4)
    else .panick
  | .NS => do
    let (domain2, i2) ← get_name_from_packet buffer index 0
    .ok (.NS (DnsRecordNS.new preamble domain2), i2)
  | .CNAME => do
    let (domain2, i2) ← get_name_from_packet buffer index 0
    .ok (.CNAME (DnsRecordCNAME.new preamble domain2), i2)
  | .MX => do
    let priority ← get_u16 buffer index
    let (domain2, i2) ← get_name_from_packet buffer (index + 2) 0
    .ok (.MX (DnsRecordMX.new preamble priority domain2), i2)
  | .AAAA =>
    if index + 4 ≤ buffer.length then
      .ok (.AAAA (DnsRecordAAAA.new preamble
        ⟨byteAt buffer index, byteAt buffer (index + 1),
         byteAt buffer (index + 2), byteAt buffer (index + 3)⟩), index + 4)
    else .panick
  | .DROP => .err .dropOnWire

/-- The `for _ in 0..header.question_count` loop of `DnsPacket::from_bytes`:
parse `n` questions starting at `idx`. -/
def parseQuestions (buffer : List Nat) : Nat → Nat → POut (List DnsQuestion × Nat)
  | 0, idx => .ok ([], idx)
  | n + 1, idx => do
    let (name, i1) ← get_name_from_packet buffer idx 0
    let qt ← get_u16 buffer i1
    let cls ← get_u16 buffer (i1 + 2)
    let (rest, iEnd) ← parseQuestions buffer n (i1 + 4)
    .ok (⟨name, DnsQueryType.from_num qt, cls⟩ :: rest, iEnd)

/-- The `for _ in 0..count` record loops of `DnsPacket::from_bytes`. -/
def parseRecords (buffer : List Nat) : Nat → Nat → POut (List DnsRecord × Nat)
  | 0, idx => .ok ([], idx)
  | n + 1, idx => do
    let (record, i1) ← parse_dns_record buffer idx
    let (rest, iEnd) ← parseRecords buffer n i1
    .ok (record :: rest, iEnd)

/-- Source: `DnsPacket::from_bytes` (`src/src/dns_packet.rs:57`).  The very
first operation is the slice `&buffer[0..12]`, which PANICS when the buffer
is shorter than 12 bytes; only then does `DnsHeader::from_bytes` run (its
own length check can therefore never fail from this call site). -/
def DnsPacket.from_bytes (buffer : List Nat) : POut DnsPacket :=
  if buffer.length < 12 then .panick
  else
    match DnsHeader.from_bytes (buffer.take 12) with
    | none => .err .headerLen
    | some header => do
      let (qs, i1) ← parseQuestions buffer header.question_count 12
      let (ans, i2) ← parseRecords buffer header.answer_count i1
      let (auth, i3) ← parseRecords buffer header.authority_count i2
      let (add, _) ← parseRecords buffer header.additional_count i3
      .ok { header := header, question_section := qs, answer_section := ans,
            authority_section := auth, additional_section := add }

/-- Errors surfaced by the store layer (`rusqlite::Error` in the source),
plus an explicit case for Rust panics inside row conversion. -/
inductive DbErr where
  /-- rusqlite `InvalidColumnType`: an integer was requested from a TEXT
  column. -/
  | invalidColumnType
  /-- SQLite `SQLITE_CONSTRAINT`: a UNIQUE / PRIMARY KEY violation on a plain
  `INSERT`. -/
  | constraintViolation
  /-- A Rust panic (`unwrap` failure) inside the row-conversion closure. -/
  | panicked
deriving DecidableEq, Repr

/-- Model of `rusqlite::Result` with the relevant error cases. -/
inductive SqlResult (α : Type) where
  | ok (a : α)
  | err (e : DbErr)
deriving DecidableEq, Repr

/-- One row of the `records` table: columns
`(domain, query_type, class, ttl, len, hostipbody, priority)`.
`domain` and `hostipbody` are TEXT columns, the rest INTEGER (the source
binds every value as a string and SQLite's column affinity converts the
numeric ones).  `class` is spelled `cls`. -/
structure RecordRow where
  domain : String
  query_type : Nat
  cls : Nat
  ttl : Nat
  len : Nat
  hostipbody : String
  priority : Nat
deriving DecidableEq, Repr

/-- One row of the `cached_records` table: a record row plus `insert_time`. -/
structure CachedRow where
  row : RecordRow
  insert_time : Nat
deriving DecidableEq, Repr

/-- The persistent state behind one `SimpleDatabase` connection: the three
tables created by the init routine.  The tables themselves always exist in
the model (`CREATE TABLE IF NOT EXISTS` is a no-op on the row lists). -/
structure DbState where
  records : List RecordRow
  cached : List CachedRow
  servers : List String
deriving DecidableEq, Repr

/-- A database with empty tables (the state right after the schema exists). -/
def emptyDb : DbState := { records := [], cached := [], servers := [] }

/-- The columns covered by `record_unique_idx` / `cached_record_unique_idx`:
`(domain, query_type, hostipbody, priority)`. -/
def RecordRow.key (row : RecordRow) : String × Nat × String × Nat :=
  (row.domain, row.query_type, row.hostipbody, row.priority)

namespace SimpleDatabase

/-- The field extraction shared verbatim by `insert_record` and
`insert_cache_record` (`src/src/simple_database.rs:132-158` and `167-193`):
priority is the MX preference and 0 otherwise; `hostipbody` is the UTF-8
body for Unknown, the dotted ip for A/AAAA, the host for NS/CNAME/MX, and
empty for DROP. -/
def recordToRow (record : DnsRecord) : RecordRow :=
  let preamble := record.get_preamble
  let priority : Nat :=
    match record with
    | .Unknown _ => 0
    | .A _ => 0
    | .NS _ => 0
    | .CNAME _ => 0
    | .MX mx => mx.priority
    | .AAAA _ => 0
    | .DROP _ => 0
  let hostipbody : String :=
    match record with
    | .Unknown r => bytesToString r.body
    | .A r => r.ip.toStr
    | .NS r => r.host
    | .CNAME r => r.host
    | .MX r => r.host
    | .AAAA r => r.ip.toStr
    | .DROP _ => ""
  { domain := preamble.domain, query_type := preamble.query_type.to_num,
    cls := preamble.cls, ttl := preamble.ttl, len := preamble.len,
    hostipbody := hostipbody, priority := priority }

/-- Source: `SimpleDatabase::insert_record` (`src/src/simple_database.rs:132`)
— `INSERT OR REPLACE INTO records`: under `record_unique_idx` the rows
conflicting on `(domain, query_type, hostipbody, priority)` are deleted and
the new row appended.  (The statement itself cannot fail on a healthy
database; I/O failures are outside the model.) -/
def insert_record (db : DbState) (record : DnsRecord) : DbState :=
  let newRow := recordToRow record
  { db with records :=
      (db.records.filter fun row => !(decide (row.key = newRow.key))) ++ [newRow] }

/-- Source: `SimpleDatabase::insert_cache_record`
(`src/src/simple_database.rs:167`) — `INSERT OR REPLACE INTO cached_records
... unixepoch()`: the wall clock read by `unixepoch()` is the parameter
`now`. -/
def insert_cache_record (db : DbState) (now : Nat) (record : DnsRecord) : DbState :=
  let newRow := recordToRow record
  { db with cached :=
      (db.cached.filter fun c => !(decide (c.row.key = newRow.key))) ++
      [{ row := newRow, insert_time := now }] }

/-- Source: `SimpleDatabase::clean_up_cache` (`src/src/simple_database.rs:98`)
— `DELETE FROM cached_records WHERE ttl < unixepoch() - insert_time`.  The
comparison is strict; SQLite evaluates `unixepoch() - insert_time` as a
(possibly negative) integer, and a nonnegative ttl is never `<` a negative
number, which `Nat` truncated subtraction models exactly. -/
def clean_up_cache (db : DbState) (now : Nat) : DbState :=
  { db with cached := db.cached.filter fun c => !(decide (c.row.ttl < now - c.insert_time)) }

/-- Source: `SimpleDatabase::row_to_dns_record`
(`src/src/simple_database.rs:36`).  Column indices follow the SELECT list
`domain, query_type, class, ttl, len, hostipbody, priority`.  The MX arm
executes `row.get::<usize, u16>(5)` — column 5 is the TEXT column
`hostipbody`, and rusqlite refuses to read a TEXT value as an integer, so
that arm always fails with `InvalidColumnType` before the host is read.
The A/AAAA arms `unwrap` the ip parse, a panic when `hostipbody` is not a
dotted quad. -/
def row_to_dns_record (row : RecordRow) : SqlResult DnsRecord :=
  let preamble : DnsRecordPreamble :=
    { domain := row.domain, query_type := DnsQueryType.from_num row.query_type,
      cls := row.cls, ttl := row.ttl, len := row.len }
  match preamble.query_type with
  | .Unknown _ =>
    .ok (.Unknown (DnsRecordUnknown.new preamble (row.hostipbody.toUTF8.toList.map UInt8.toNat)))
  | .A =>
    match Ipv4Addr.fromStr row.hostipbody with
    | some ip => .ok (.A (DnsRecordA.new preamble ip))
    | none => .err .panicked
  | .NS => .ok (.NS (DnsRecordNS.new preamble row.hostipbody))
  | .CNAME => .ok (.CNAME (DnsRecordCNAME.new preamble row.hostipbody))
  | .MX => .err .invalidColumnType
  | .AAAA =>
    match Ipv4Addr.fromStr row.hostipbody with
    | some ip => .ok (.AAAA (DnsRecordAAAA.new preamble ip))
    | none => .err .panicked
  | .DROP => .ok (.DROP (DnsRecordDROP.new preamble))

/-- Source: `SimpleDatabase::run_dns_record_query` — maps
`row_to_dns_record` over the selected rows, propagating the first error. -/
def run_dns_record_query : List RecordRow → SqlResult (List DnsRecord)
  | [] => .ok []
  | row :: rest =>
    match row_to_dns_record row with
    | .err e => .err e
    | .ok record =>
      match run_dns_record_query rest with
      | .err e => .err e
      | .ok records => .ok (record :: records)

/-- Source: `SimpleDatabase::get_records` (`src/src/simple_database.rs:115`)
— evict expired cache rows, then return the authoritative rows for the
domain followed by the cached rows for the domain.  `now` is the wall clock
consumed by the eviction.  The returned state is the connection state after
the call (eviction persists even when row conversion fails). -/
def get_records (db : DbState) (now : Nat) (domain : String) :
    SqlResult (List DnsRecord) × DbState :=
  let db1 := clean_up_cache db now
  match run_dns_record_query (db1.records.filter fun row => decide (row.domain = domain)) with
  | .err e => (.err e, db1)
  | .ok records =>
    match run_dns_record_query
        ((db1.cached.map CachedRow.row).filter fun row => decide (row.domain = domain)) with
    | .err e => (.err e, db1)
    | .ok cached_records => (.ok (records ++ cached_records), db1)

/-- Source: `SimpleDatabase::initialize` (`src/src/simple_database.rs:25`)
(spelled `initDb` here).  The `CREATE TABLE IF NOT EXISTS` / `CREATE UNIQUE
INDEX IF NOT EXISTS` statements are no-ops on the modelled state; the two
upstream-server inserts are PLAIN `INSERT`s into a table whose `ip` column
is the PRIMARY KEY, so inserting an ip that is already present fails with a
constraint violation which `?` propagates immediately (the earlier
statements' effects persist — there is no transaction). -/
def initDb (db : DbState) : SqlResult Unit × DbState :=
  if "8.8.8.8" ∈ db.servers then (.err .constraintViolation, db)
  else
    let db1 := { db with servers := db.servers ++ ["8.8.8.8"] }
    if "75.75.75.75" ∈ db1.servers then (.err .constraintViolation, db1)
    else (.ok (), { db1 with servers := db1.servers ++ ["75.75.75.75"] })

end SimpleDatabase

namespace DnsResolver

/-- Source: `DnsResolver::any_record_type` (`src/src/dns_resolver.rs:163`) —
every match arm compares the variant's `preamble.query_type` with the
requested type and returns true on the first hit. -/
def any_record_type (records : List DnsRecord) (record_type : DnsQueryType) : Bool :=
  records.any fun r =>
    match r with
    | .Unknown x => x.preamble.query_type == record_type
    | .A x => x.preamble.query_type == record_type
    | .NS x => x.preamble.query_type == record_type
    | .CNAME x => x.preamble.query_type == record_type
    | .MX x => x.preamble.query_type == record_type
    | .AAAA x => x.preamble.query_type == record_type
    | .DROP x => x.preamble.query_type == record_type

/-- The upstream-copy loops of `answer_question`
(`for ans in result.answer_section { packet.answer_section.push(ans);
packet.header.answer_count += 1; }` and likewise for the authority and
additional sections): push one record at a time, bumping the count per
element. -/
def pushAll (sec : List DnsRecord) (count : Nat) :
    List DnsRecord → List DnsRecord × Nat
  | [] => (sec, count)
  | r :: rest => pushAll (sec ++ [r]) (count + 1) rest

/-- The remote lookup as seen from `answer_question`:
`DnsResolver::remote_lookup` picks a random upstream, binds an ephemeral
UDP socket, sends a freshly built query and parses up to 512 received
bytes.  All of that is network I/O, so the whole helper is an oracle
parameter of type `String → DnsQueryType → Option DnsPacket` (`some` for
`Ok(packet)`, `none` for any `Err`). -/
def RemoteLookup : Type := String → DnsQueryType → Option DnsPacket

/-- Source: `DnsResolver::answer_question` (`src/src/dns_resolver.rs:21`).
The database handle is the explicit state `db`; `now` is the wall clock the
store reads; `remote_lookup` is the network oracle.  The source calls
`get_records(question.name.clone(), question.query_type)` — the store's
`get_records` in `src/src/simple_database.rs` consumes only the domain, so
the query type is passed to the oracle only.  Note that NO branch of this
function calls `insert_cache_record`: the database leaves the call changed
only by the eviction inside `get_records`. -/
def answer_question (request : DnsPacket) (db : DbState) (now : Nat)
    (remote_lookup : RemoteLookup) : DnsPacket × DbState :=
  let packet0 : DnsPacket :=
    { DnsPacket.new request.header.id with
        header := { DnsHeader.new request.header.id with
                      recurse_desired := true,
                      recurse_available := true,
                      query_response := true } }
  match request.question_section.head? with
  | none =>
    ({ packet0 with header := { packet0.header with response_code := .FORMERR } }, db)
  | some question =>
    let gr := SimpleDatabase.get_records db now question.name
    let db1 := gr.2
    match gr.1 with
    | .ok records =>
      if !records.isEmpty then
        let withQ : DnsPacket :=
          { packet0 with
              question_section := packet0.question_section ++ [question],
              header := { packet0.header with
                            question_count := packet0.header.question_count + 1 } }
        if any_record_type records .DROP then
          ({ withQ with header := { withQ.header with response_code := .NXDOMAIN } }, db1)
        else
          let (sec, count) := pushAll withQ.answer_section withQ.header.answer_count records
          ({ withQ with
               answer_section := sec,
               header := { withQ.header with
                             response_code := .NOERROR,
                             answer_count := count } }, db1)
      else
        match remote_lookup question.name question.query_type with
        | some result =>
          let p1 : DnsPacket :=
            { packet0 with
                question_section := packet0.question_section ++ [question],
                header := { packet0.header with
                              question_count := packet0.header.question_count + 1,
                              response_code := result.header.response_code } }
          let (ansSec, ansCount) := pushAll p1.answer_section p1.header.answer_count
            result.answer_section
          let (authSec, authCount) := pushAll p1.authority_section p1.header.authority_count
            result.authority_section
          let (addSec, addCount) := pushAll p1.additional_section p1.header.additional_count
            result.additional_section
          ({ p1 with
               answer_section := ansSec,
               authority_section := authSec,
               additional_section := addSec,
               header := { p1.header with
                             answer_count := ansCount,
                             authority_count := authCount,
                             additional_count := addCount } }, db1)
        | none =>
          ({ packet0 with header := { packet0.header with response_code := .SERVFAIL } }, db1)
    | .err _ =>
      -- the duplicated forwarding block of the `Err(error)` arm
      match remote_lookup question.name question.query_type with
      | some result =>
        let p1 : DnsPacket :=
          { packet0 with
              question_section := packet0.question_section ++ [question],
              header := { packet0.header with
                            question_count := packet0.header.question_count + 1,
                            response_code := result.header.response_code } }
        let (ansSec, ansCount) := pushAll p1.answer_section p1.header.answer_count
          result.answer_section
        let (authSec, authCount) := pushAll p1.authority_section p1.header.authority_count
          result.authority_section
        let (addSec, addCount) := pushAll p1.additional_section p1.header.additional_count
          result.additional_section
        ({ p1 with
             answer_section := ansSec,
             authority_section := authSec,
             additional_section := addSec,
             header := { p1.header with
                           answer_count := ansCount,
                           authority_count := authCount,
                           additional_count := addCount } }, db1)
      | none =>
        ({ packet0 with header := { packet0.header with response_code := .SERVFAIL } }, db1)

end DnsResolver

/-- Source: `WorkerState<U>` in
`src/thread-pooler/src/manager_worker_pool.rs` (payloads `Finished(U)` and
`Dead(error)` dropped — no theorem inspects them). -/
inductive WorkerState where
  | idle
  | busy
  | finished
  | dead
deriving DecidableEq, Repr

/-- Source: `ManagerWorkerPool` — the configuration `worker_count` and the
`worker_threads` vector, one entry per spawned worker, holding the state of
that worker.  Entries are only ever pushed by `spawn_worker`; nothing in
the source removes an entry. -/
structure ManagerWorkerPool where
  worker_count : Nat
  worker_threads : List WorkerState
deriving DecidableEq, Repr

/-- Source: `ManagerWorkerPool::build_missing_workers`
(`src/thread-pooler/src/manager_worker_pool.rs:183`) — if the vector already
has at least `worker_count` entries, return immediately; otherwise spawn
`worker_count - len` new workers (each starts Idle) and push them. -/
def ManagerWorkerPool.build_missing_workers (p : ManagerWorkerPool) : ManagerWorkerPool :=
  if p.worker_threads.length ≥ p.worker_count then p
  else
    { p with worker_threads :=
        p.worker_threads ++
        List.replicate (p.worker_count - p.worker_threads.length) .idle }

/-- A worker whose thread is still running: Idle or Busy.  A worker whose
closure broke out (`Finished`) or died (`Dead`) has exited. -/
def liveWorkerCount (p : ManagerWorkerPool) : Nat :=
  (p.worker_threads.filter fun s => s == .idle || s == .busy).length

/-! Concrete inputs used by the theorems below. -/

/-- A header with only the Z flag set. -/
def exHeaderZ : DnsHeader := { DnsHeader.new 0 with z := true }

/-- What `DnsHeader::from_bytes` actually returns for `exHeaderZ.to_bytes`:
the Z bit of byte 3 comes back as `checking_disabled`. -/
def exHeaderZDecoded : DnsHeader := { DnsHeader.new 0 with checking_disabled := true }

/-- A DROP record for `ads.example`, as the store materialises it. -/
def exDropRecord : DnsRecord :=
  .DROP (DnsRecordDROP.new { domain := "ads.example", query_type := .DROP,
                             cls := 1, ttl := 0, len := 0 })

/-- A packet holding one DROP answer, built through `add_answer` exactly as
the resolver builds responses (stored answer count 1). -/
def exDropPacket : DnsPacket := DnsPacket.add_answer (DnsPacket.new 0x1234) exDropRecord

/-- An MX record for `example.com`. -/
def exMxRecord : DnsRecord :=
  .MX { preamble := { domain := "example.com", query_type := .MX,
                      cls := 1, ttl := 300, len := 20 },
        priority := 10, host := "mail.example.com" }

/-- A cached DROP record with ttl 0 (any variant with ttl 0 serves; DROP
keeps the row reconstruction trivial). -/
def exDropTtl0 : DnsRecord :=
  .DROP (DnsRecordDROP.new { domain := "cache.example", query_type := .DROP,
                             cls := 1, ttl := 0, len := 0 })

/-- Two A records that agree on the uniqueness key
`(domain, query_type, hostipbody, priority)` but differ in ttl and class. -/
def exARecord1 : DnsRecord :=
  .A { preamble := { domain := "w.example", query_type := .A, cls := 1, ttl := 300, len := 4 },
       ip := ⟨1, 2, 3, 4⟩ }

/-- The second record of the C10 pair (same key, ttl 600, class 2). -/
def exARecord2 : DnsRecord :=
  .A { preamble := { domain := "w.example", query_type := .A, cls := 2, ttl := 600, len := 4 },
       ip := ⟨1, 2, 3, 4⟩ }

/-- A pool configured for one worker whose only worker has died. -/
def exDeadPool : ManagerWorkerPool := { worker_count := 1, worker_threads := [.dead] }

/-- The stored row behind `exDropRecord` (query type 666). -/
def exDropRow : RecordRow :=
  { domain := "ads.example", query_type := 666, cls := 1, ttl := 0, len := 0,
    hostipbody := "", priority := 0 }

/-- A store holding exactly the DROP row for `ads.example`. -/
def exDbDrop : DbState := { records := [exDropRow], cached := [], servers := [] }

/-- The question `ads.example A`. -/
def exQDrop : DnsQuestion := DnsQuestion.new "ads.example" .A

/-- A request carrying the single question `ads.example A`. -/
def exReqDrop : DnsPacket := DnsPacket.add_question (DnsPacket.new 5) exQDrop

/-- An upstream oracle that always fails. -/
def exNoRemote : DnsResolver.RemoteLookup := fun _ _ => none

/-- The question `unknown.test A`. -/
def exQU : DnsQuestion := DnsQuestion.new "unknown.test" .A

/-- A request carrying the single question `unknown.test A`. -/
def exReqU : DnsPacket := DnsPacket.add_question (DnsPacket.new 9) exQU

/-- The upstream answer `unknown.test A 9.9.9.9 TTL 60`. -/
def exRecA9 : DnsRecord :=
  .A (DnsRecordA.new { domain := "unknown.test", query_type := .A,
                       cls := 1, ttl := 60, len := 0 } ⟨9, 9, 9, 9⟩)

/-- The upstream response packet carrying `exRecA9` as its one answer. -/
def exUpPacket : DnsPacket := DnsPacket.add_answer (DnsPacket.new 9) exRecA9

/-- An upstream oracle returning `exUpPacket` for every query. -/
def exRemoteU : DnsResolver.RemoteLookup := fun _ _ => some exUpPacket

/-! Theorems. -/

/-- C2: the claimed bit-level round-trip of `DnsHeader` fails.  The encoder
writes byte 3 MSB-first as RA, Z, AD, CD, RCode(4) (RFC 1035 positions), but
the decoder reads `checking_disabled` from bit 6 (where the encoder put Z),
`z` from bit 4 (where the encoder put CD) and `authed_data` from bit 7: for
the header with only Z set, decoding its own encoding returns a header with
Z clear and CD set, so `from_bytes (to_bytes h)` does not restore h. -/
theorem dns_header_byte3_roundtrip_fails :
    DnsHeader.from_bytes (DnsHeader.to_bytes exHeaderZ) = some exHeaderZDecoded ∧
    exHeaderZ.z = true ∧ exHeaderZ.checking_disabled = false ∧
    exHeaderZDecoded.z = false ∧ exHeaderZDecoded.checking_disabled = true ∧
    DnsHeader.from_bytes (DnsHeader.to_bytes exHeaderZ) ≠ some exHeaderZ := by
  decide

/-- C4: `DnsPacket::from_bytes` is not total on short buffers.  Its first
operation is the slice `&buffer[0..12]`, so the empty buffer (and any
buffer shorter than 12 bytes) makes it panic instead of returning a
Truncated-kind error. -/
theorem from_bytes_short_buffer_panics :
    DnsPacket.from_bytes [] = POut.panick ∧
    DnsPacket.from_bytes (List.replicate 11 0) = POut.panick := by
  constructor <;> rfl

/-- C5: the store's init routine is not idempotent.  The first call on an
empty database succeeds and seeds the two upstream servers, but the second
call fails with a constraint violation: the upstream inserts are plain
`INSERT`s into a table whose ip column is the PRIMARY KEY, so re-inserting
`8.8.8.8` errors and `?` aborts the routine. -/
theorem initDb_second_call_fails :
    (SimpleDatabase.initDb emptyDb).1 = .ok () ∧
    ((SimpleDatabase.initDb emptyDb).2).servers = ["8.8.8.8", "75.75.75.75"] ∧
    (SimpleDatabase.initDb (SimpleDatabase.initDb emptyDb).2).1 =
      .err .constraintViolation := by
  decide

/-- C6: inserting an MX record and reading that domain back fails instead of
returning the record.  `row_to_dns_record` executes `row.get::<usize,u16>(5)`
for the MX preference, but column 5 of the SELECT list is the TEXT column
`hostipbody` (the priority lives in column 6), and rusqlite refuses to read
a TEXT value as an integer — so `get_records` returns `InvalidColumnType`
for every stored MX record. -/
theorem get_records_after_mx_insert_errors :
    (SimpleDatabase.get_records (SimpleDatabase.insert_record emptyDb exMxRecord)
        0 "example.com").1 = .err .invalidColumnType := by
  decide

/-- C9 counterexample: a pool configured for one worker whose only worker
has died is left unchanged by `build_missing_workers` — the dead worker
still occupies its `worker_threads` slot, so the list length equals the
configured count, nothing is spawned, and the live-worker count stays 0
instead of being restored to 1. -/
theorem build_missing_workers_dead_not_replaced :
    ManagerWorkerPool.build_missing_workers exDeadPool = exDeadPool ∧
    liveWorkerCount (ManagerWorkerPool.build_missing_workers exDeadPool) = 0 ∧
    exDeadPool.worker_count = 1 := by
  decide

/-- C9 (amended): `build_missing_workers` — the only restorative step a
manager iteration performs — is a no-op whenever the worker list already
has at least the configured number of entries.  Exited workers are never
removed from the list, so they are counted, not replaced. -/
theorem build_missing_workers_full_list_noop (p : ManagerWorkerPool)
    (h : p.worker_count ≤ p.worker_threads.length) :
    ManagerWorkerPool.build_missing_workers p = p := by
  unfold ManagerWorkerPool.build_missing_workers
  simp [h]

/-- Witness for `build_missing_workers_full_list_noop` at the one-dead-worker
pool. -/
theorem build_missing_workers_full_list_noop_witness :
    exDeadPool.worker_count ≤ exDeadPool.worker_threads.length ∧
    ManagerWorkerPool.build_missing_workers exDeadPool = exDeadPool :=
  ⟨by decide, build_missing_workers_full_list_noop exDeadPool (by decide)⟩

/-- C3 counterexample: counts are NOT re-derived from section lengths.  A
packet holding one DROP answer (stored answer count 1) serializes to the 12
header bytes alone — the DROP record encodes to zero bytes — yet the
serialized answer-count field still reads 1, inflating the count relative
to the zero records actually encoded. -/
theorem to_bytes_drop_answer_count_inflated :
    exDropPacket.header.answer_count = 1 ∧
    DnsPacket.to_bytes exDropPacket = DnsHeader.to_bytes exDropPacket.header ∧
    (DnsPacket.to_bytes exDropPacket).length = 12 ∧
    get_u16 (DnsPacket.to_bytes exDropPacket) 6 = .ok 1 := by
  decide

/-- C3 (amended): `DnsPacket::to_bytes` writes the header's STORED count
fields verbatim — the first 12 output bytes are exactly
`header.to_bytes`, whose bytes 4..12 are the u16 encodings of the stored
question/answer/authority/additional counts; the section lengths are never
consulted, so a DROP answer (zero encoded bytes) counted in `answer_count`
yields a serialized count larger than the number of records encoded. -/
theorem to_bytes_counts_are_stored_header_fields (p : DnsPacket) :
    (DnsPacket.to_bytes p).take 12 = DnsHeader.to_bytes p.header ∧
    (DnsHeader.to_bytes p.header).drop 4 =
      u16_to_bytes p.header.question_count ++ u16_to_bytes p.header.answer_count ++
      u16_to_bytes p.header.authority_count ++ u16_to_bytes p.header.additional_count := by
  constructor
  · have h12 : (DnsHeader.to_bytes p.header).length = 12 := by
      simp [DnsHeader.to_bytes, u16_to_bytes]
    have : DnsPacket.to_bytes p = DnsHeader.to_bytes p.header ++
        ((p.question_section.flatMap DnsQuestion.to_bytes) ++
         ((p.answer_section.flatMap DnsRecord.to_bytes) ++
          ((p.authority_section.flatMap DnsRecord.to_bytes) ++
           (p.additional_section.flatMap DnsRecord.to_bytes)))) := by
      simp [DnsPacket.to_bytes]
    rw [this, List.take_left' h12]
  · simp [DnsHeader.to_bytes, u16_to_bytes]

/-- C7 counterexample: a record cached with ttl 0 is still returned by a
read performed in the same second as the insert.  Eviction deletes a row
only when `ttl < now - insert_time` holds strictly; at `now = insert_time`
that is `0 < 0`, so the row survives and `get_records` returns it —
contradicting the claim that an immediate read already misses it. -/
theorem ttl_zero_cached_returned_same_second :
    (SimpleDatabase.get_records
        (SimpleDatabase.insert_cache_record emptyDb 100 exDropTtl0)
        100 "cache.example").1 = .ok [exDropTtl0] := by
  decide

/-- C7 (amended): a record cached with ttl 0 disappears from reads once at
least one full second has elapsed (`now - insert_time` then strictly
exceeds the ttl of 0, so the lazy eviction at the start of `get_records`
deletes the row); the read performed within the insertion second still
returns it. -/
theorem ttl_zero_cached_evicted_after_second (t now : Nat) (r : DnsRecord)
    (h0 : r.get_preamble.ttl = 0) (h1 : t < now) :
    (SimpleDatabase.get_records (SimpleDatabase.insert_cache_record emptyDb t r)
        now r.get_preamble.domain).1 = .ok [] := by
  have hrow : (SimpleDatabase.recordToRow r).ttl = 0 := h0
  have hpos : 0 < now - t := by omega
  simp [SimpleDatabase.get_records, SimpleDatabase.insert_cache_record,
        SimpleDatabase.clean_up_cache, emptyDb, hrow, hpos,
        SimpleDatabase.run_dns_record_query]

/-- Witness for `ttl_zero_cached_evicted_after_second`: insert at second 0,
read at second 1. -/
theorem ttl_zero_cached_evicted_after_second_witness :
    exDropTtl0.get_preamble.ttl = 0 ∧ (0 : Nat) < 1 ∧
    (SimpleDatabase.get_records (SimpleDatabase.insert_cache_record emptyDb 0 exDropTtl0)
        1 exDropTtl0.get_preamble.domain).1 = .ok [] :=
  ⟨by decide, by decide, ttl_zero_cached_evicted_after_second 0 1 exDropTtl0 (by decide) (by decide)⟩

/-- Rows conflicting with `row` on the unique key are removed by the upsert
and the fresh row sits alone under its key. -/
theorem filter_key_upsert (l : List RecordRow) (row : RecordRow) :
    ((l.filter fun a => !(decide (a.key = row.key))) ++ [row]).filter
        (fun a => decide (a.key = row.key)) = [row] := by
  rw [List.filter_append]
  have h1 : (l.filter fun a => !(decide (a.key = row.key))).filter
      (fun a => decide (a.key = row.key)) = [] := by
    refine List.filter_eq_nil_iff.mpr ?_
    intro a ha
    have := List.of_mem_filter ha
    simp at this ⊢
    exact this
  rw [h1]
  simp

/-- C10: the authoritative upsert keeps one row per uniqueness key.  For any
starting table and any records r1, r2 agreeing on
`(domain, query_type, hostipbody, priority)`, inserting r1 then r2 leaves
exactly the row of r2 under that key — carrying r2's ttl and class — since
`INSERT OR REPLACE` under `record_unique_idx` deletes the conflicting row
first. -/
theorem insert_record_upsert_unique_key (db : DbState) (r1 r2 : DnsRecord)
    (h : (SimpleDatabase.recordToRow r1).key = (SimpleDatabase.recordToRow r2).key) :
    ((SimpleDatabase.insert_record (SimpleDatabase.insert_record db r1) r2).records.filter
        fun row => decide (row.key = (SimpleDatabase.recordToRow r2).key))
      = [SimpleDatabase.recordToRow r2] ∧
    (SimpleDatabase.recordToRow r2).ttl = r2.get_preamble.ttl ∧
    (SimpleDatabase.recordToRow r2).cls = r2.get_preamble.cls := by
  refine ⟨?_, rfl, rfl⟩
  simp only [SimpleDatabase.insert_record]
  exact filter_key_upsert _ _

/-- Witness for `insert_record_upsert_unique_key`: the two A records for
`w.example` that share the key but differ in ttl and class. -/
theorem insert_record_upsert_unique_key_witness :
    (SimpleDatabase.recordToRow exARecord1).key = (SimpleDatabase.recordToRow exARecord2).key ∧
    (((SimpleDatabase.insert_record (SimpleDatabase.insert_record emptyDb exARecord1)
          exARecord2).records.filter
        fun row => decide (row.key = (SimpleDatabase.recordToRow exARecord2).key))
      = [SimpleDatabase.recordToRow exARecord2] ∧
     (SimpleDatabase.recordToRow exARecord2).ttl = exARecord2.get_preamble.ttl ∧
     (SimpleDatabase.recordToRow exARecord2).cls = exARecord2.get_preamble.cls) :=
  ⟨by decide, insert_record_upsert_unique_key emptyDb exARecord1 exARecord2 (by decide)⟩

/-- The per-record push loops append the whole list and add its length to
the count. -/
theorem pushAll_eq (l : List DnsRecord) (sec : List DnsRecord) (count : Nat) :
    DnsResolver.pushAll sec count l = (sec ++ l, count + l.length) := by
  induction l generalizing sec count with
  | nil => simp [DnsResolver.pushAll]
  | cons r rest ih =>
    simp only [DnsResolver.pushAll, ih, List.length_cons]
    refine Prod.ext ?_ ?_
    · simp
    · simp; omega

/-- C8: when the first question matches a non-empty record set containing a
record of query type DROP, the resolver answers NXDOMAIN with answer count
0, an empty answer section, and the original question copied into the
response. -/
theorem answer_question_drop_gives_nxdomain (request : DnsPacket) (db : DbState)
    (now : Nat) (remote : DnsResolver.RemoteLookup) (q : DnsQuestion)
    (records : List DnsRecord)
    (hq : request.question_section.head? = some q)
    (hGet : (SimpleDatabase.get_records db now q.name).1 = .ok records)
    (hNe : records ≠ [])
    (hDrop : DnsResolver.any_record_type records .DROP = true) :
    (DnsResolver.answer_question request db now remote).1.header.response_code = .NXDOMAIN ∧
    (DnsResolver.answer_question request db now remote).1.header.answer_count = 0 ∧
    (DnsResolver.answer_question request db now remote).1.answer_section = [] ∧
    (DnsResolver.answer_question request db now remote).1.question_section = [q] := by
  cases records with
  | nil => cases hNe rfl
  | cons r0 rs =>
    simp [DnsResolver.answer_question, hq, hGet, hDrop, DnsPacket.new, DnsHeader.new]

/-- Witness for `answer_question_drop_gives_nxdomain`: the store with a
DROP row for `ads.example` and a request asking `ads.example A`. -/
theorem answer_question_drop_gives_nxdomain_witness :
    exReqDrop.question_section.head? = some exQDrop ∧
    (SimpleDatabase.get_records exDbDrop 7 exQDrop.name).1 = .ok [exDropRecord] ∧
    ([exDropRecord] ≠ ([] : List DnsRecord)) ∧
    DnsResolver.any_record_type [exDropRecord] .DROP = true ∧
    ((DnsResolver.answer_question exReqDrop exDbDrop 7 exNoRemote).1.header.response_code
        = .NXDOMAIN ∧
     (DnsResolver.answer_question exReqDrop exDbDrop 7 exNoRemote).1.header.answer_count = 0 ∧
     (DnsResolver.answer_question exReqDrop exDbDrop 7 exNoRemote).1.answer_section = [] ∧
     (DnsResolver.answer_question exReqDrop exDbDrop 7 exNoRemote).1.question_section
        = [exQDrop]) :=
  ⟨by decide, by decide, by decide, by decide,
   answer_question_drop_gives_nxdomain exReqDrop exDbDrop 7 exNoRemote exQDrop
     [exDropRecord] (by decide) (by decide) (by decide) (by decide)⟩

/-- C1 counterexample: on a miss with a successful upstream lookup, the
appended upstream answer is NOT present in the cache afterwards.  With an
empty store and an upstream returning one A record, the response carries
that record in its answer section while the cache table after the call is
still empty — `answer_question` never calls `insert_cache_record`. -/
theorem answer_question_upstream_answer_not_in_cache :
    (DnsResolver.answer_question exReqU emptyDb 50 exRemoteU).1.answer_section = [exRecA9] ∧
    ((DnsResolver.answer_question exReqU emptyDb 50 exRemoteU).2).cached = [] := by
  decide

/-- C1 (amended): on a miss (`get_records` returns Ok with no rows) with an
upstream lookup that parses successfully, the resolver copies the
upstream's response code and appends the upstream answer/authority/
additional sections with matching counts — but writes NONE of the appended
records into the cache: the database state after the call is exactly the
state the eviction inside `get_records` left, so a record not already
cached is absent from the cache afterwards. -/
theorem answer_question_upstream_appends_without_caching (request : DnsPacket)
    (db : DbState) (now : Nat) (remote : DnsResolver.RemoteLookup)
    (q : DnsQuestion) (result : DnsPacket)
    (hq : request.question_section.head? = some q)
    (hMiss : (SimpleDatabase.get_records db now q.name).1 = .ok [])
    (hUp : remote q.name q.query_type = some result) :
    (DnsResolver.answer_question request db now remote).1.header.response_code
      = result.header.response_code ∧
    (DnsResolver.answer_question request db now remote).1.answer_section
      = result.answer_section ∧
    (DnsResolver.answer_question request db now remote).1.authority_section
      = result.authority_section ∧
    (DnsResolver.answer_question request db now remote).1.additional_section
      = result.additional_section ∧
    (DnsResolver.answer_question request db now remote).1.header.answer_count
      = result.answer_section.length ∧
    (DnsResolver.answer_question request db now remote).1.header.authority_count
      = result.authority_section.length ∧
    (DnsResolver.answer_question request db now remote).1.header.additional_count
      = result.additional_section.length ∧
    (DnsResolver.answer_question request db now remote).2
      = SimpleDatabase.clean_up_cache db now := by
  have hdb : (SimpleDatabase.get_records db now q.name).2
      = SimpleDatabase.clean_up_cache db now := by
    unfold SimpleDatabase.get_records
    cases hrec : SimpleDatabase.run_dns_record_query
        ((SimpleDatabase.clean_up_cache db now).records.filter
          fun row => decide (row.domain = q.name)) <;>
      cases hcache : SimpleDatabase.run_dns_record_query
          (((SimpleDatabase.clean_up_cache db now).cached.map CachedRow.row).filter
            fun row => decide (row.domain = q.name)) <;>
        simp [hrec, hcache]
  simp [DnsResolver.answer_question, hq, hMiss, hUp, pushAll_eq,
        DnsPacket.new, DnsHeader.new, hdb]

/-- Witness for `answer_question_upstream_appends_without_caching`: the
empty store, the `unknown.test A` request and the stub upstream answering
`9.9.9.9`. -/
theorem answer_question_upstream_appends_without_caching_witness :
    exReqU.question_section.head? = some exQU ∧
    (SimpleDatabase.get_records emptyDb 50 exQU.name).1 = .ok [] ∧
    exRemoteU exQU.name exQU.query_type = some exUpPacket ∧
    ((DnsResolver.answer_question exReqU emptyDb 50 exRemoteU).1.header.response_code
        = exUpPacket.header.response_code ∧
     (DnsResolver.answer_question exReqU emptyDb 50 exRemoteU).1.answer_section
        = exUpPacket.answer_section ∧
     (DnsResolver.answer_question exReqU emptyDb 50 exRemoteU).1.authority_section
        = exUpPacket.authority_section ∧
     (DnsResolver.answer_question exReqU emptyDb 50 exRemoteU).1.additional_section
        = exUpPacket.additional_section ∧
     (DnsResolver.answer_question exReqU emptyDb 50 exRemoteU).1.header.answer_count
        = exUpPacket.answer_section.length ∧
     (DnsResolver.answer_question exReqU emptyDb 50 exRemoteU).1.header.authority_count
        = exUpPacket.authority_section.length ∧
     (DnsResolver.answer_question exReqU emptyDb 50 exRemoteU).1.header.additional_count
        = exUpPacket.additional_section.length ∧
     (DnsResolver.answer_question exReqU emptyDb 50 exRemoteU).2
        = SimpleDatabase.clean_up_cache emptyDb 50) :=
  ⟨by decide, by decide, by decide,
   answer_question_upstream_appends_without_caching exReqU emptyDb 50 exRemoteU exQU
     exUpPacket (by decide) (by decide) (by decide)⟩

end SimpleDns
